import Mathlib

/-!
Shallow embedding of the SSD1315 OLED driver (ssd1315.py): the display
configuration, the packed page-major framebuffer, the command/data bus
protocol, the initialization sequence, and the Canvas context manager.
Bus traffic is modelled as the list of write transactions issued, in order.
-/

set_option maxRecDepth 4000

namespace SSD1315

/-- Display geometry and orientation as stored by SSD1315.__init__:
width and height in pixels, and the rotate argument (0 means normal
orientation, anything else the 180 degree path). -/
structure Config where
  width : Nat
  height : Nat
  rotate : Nat
deriving DecidableEq

/-- Derived page count, self.pages = height // 8. -/
def Config.pages (c : Config) : Nat := c.height / 8

/-- One bus transaction: write_byte_data(addr, 0x00, b) for a command
byte, or write_i2c_block_data(addr, 0x40, chunk) for a data chunk. -/
inductive BusWrite where
  | cmd (b : Nat)
  | data (chunk : List Nat)
deriving DecidableEq

/-- The I2C control byte of a transaction: 0x00 for commands, 0x40 for
data. -/
def BusWrite.controlByte : BusWrite → Nat
  | .cmd _ => 0x00
  | .data _ => 0x40

-- Command constants of the SSD1315 class.
def DISPLAY_OFF : Nat := 0xAE
def DISPLAY_ON : Nat := 0xAF
def SET_CLOCK_DIV : Nat := 0xD5
def SET_MUX_RATIO : Nat := 0xA8
def SET_DISPLAY_OFFSET : Nat := 0xD3
def SET_START_LINE : Nat := 0x40
def CHARGE_PUMP : Nat := 0x8D
def CHARGE_PUMP_ON : Nat := 0x14
def SET_MEMORY_MODE : Nat := 0x20
def SEG_REMAP_ON : Nat := 0xA1
def SEG_REMAP_OFF : Nat := 0xA0
def COM_SCAN_DEC : Nat := 0xC8
def COM_SCAN_INC : Nat := 0xC0
def SET_COM_PINS : Nat := 0xDA
def SET_CONTRAST : Nat := 0x81
def SET_PRECHARGE : Nat := 0xD9
def SET_VCOMH : Nat := 0xDB
def DISPLAY_ALL_ON_RESUME : Nat := 0xA4
def NORMAL_DISPLAY : Nat := 0xA6
def INVERSE_DISPLAY : Nat := 0xA7
def SET_COLUMN_ADDR : Nat := 0x21
def SET_PAGE_ADDR : Nat := 0x22

/-- SSD1315._command: writes each byte individually with control prefix
0x00, in order. -/
def command (cmds : List Nat) : List BusWrite := cmds.map BusWrite.cmd

/-- The chunks cut by SSD1315._data: for i in range(0, len(data), 32) the
slice data[i : i+32]; range(0, L, 32) has (L + 31) / 32 elements. -/
def dataChunks (data : List Nat) : List (List Nat) :=
  (List.range ((data.length + 31) / 32)).map fun i => (data.drop (32 * i)).take 32

/-- SSD1315._data: each chunk is written as one transaction with control
prefix 0x40, preserving order. -/
def sendData (data : List Nat) : List BusWrite :=
  (dataChunks data).map BusWrite.data

/-- A cleared framebuffer, as built by SSD1315.clear and by the
constructor: width * pages zero bytes. -/
def clear (c : Config) : List Nat := List.replicate (c.width * c.pages) 0

/-- SSD1315.set_pixel: in bounds, sets (color nonzero) or clears
(color zero) bit y mod 8 of the byte at (y / 8) * width + x; out of
bounds it does nothing. The Python clear `b &= ~(1 << bit)` on a
nonnegative int is bitwise difference, Nat.ldiff. -/
def set_pixel (c : Config) (buf : List Nat) (x y : Int) (color : Nat) : List Nat :=
  if 0 ≤ x ∧ x < (c.width : Int) ∧ 0 ≤ y ∧ y < (c.height : Int) then
    let page := y.toNat / 8
    let bit := y.toNat % 8
    let idx := page * c.width + x.toNat
    if color ≠ 0 then
      buf.set idx (buf.getD idx 0 ||| (1 <<< bit))
    else
      buf.set idx (Nat.ldiff (buf.getD idx 0) (1 <<< bit))
  else
    buf

/-- SSD1315.fill: replaces the buffer with width * pages copies of 0xFF
(color nonzero) or 0x00 (color zero); the prior buffer is discarded. -/
def fill (c : Config) (_old : List Nat) (color : Nat) : List Nat :=
  List.replicate (c.width * c.pages) (if color ≠ 0 then 0xFF else 0x00)

/-- SSD1315.display: column-address window [0, width-1], page-address
window [0, pages-1], then the whole buffer as data. -/
def display (c : Config) (buf : List Nat) : List BusWrite :=
  command [SET_COLUMN_ADDR, 0, c.width - 1]
  ++ command [SET_PAGE_ADDR, 0, c.pages - 1]
  ++ sendData buf

/-- SSD1315.image on a 1-bit image of the exact display size (the method
converts and resizes first, so the grid is width x height): clear, then
for each y then x set the pixel when the source pixel is foreground. -/
def image (c : Config) (px : Nat → Nat → Bool) : List Nat :=
  (List.range c.height).foldl
    (fun b y =>
      (List.range c.width).foldl
        (fun b2 x => if px x y then set_pixel c b2 x y 1 else b2) b)
    (clear c)

/-- SSD1315._init_display: the fixed command sequence, followed by
clear() and display(). -/
def init_display (c : Config) : List BusWrite :=
  command [DISPLAY_OFF]
  ++ command [SET_CLOCK_DIV, 0x80]
  ++ command [ SET_MUX_RATIO, c.height - 1]
  ++ command [SET_DISPLAY_OFFSET, 0x00]
  ++ command [SET_START_LINE ||| 0x00]
  ++ command [CHARGE_PUMP, CHARGE_PUMP_ON]
  ++ command [SET_MEMORY_MODE, 0x00]
  ++ (if c.rotate = 0 then command [SEG_REMAP_ON] ++ command [COM_SCAN_DEC]
      else command [SEG_REMAP_OFF] ++ command [COM_SCAN_INC])
  ++ command [SET_COM_PINS, if c.height ≤ 32 then 0x02 else 0x12]
  ++ command [SET_CONTRAST, 0xCF]
  ++ command [SET_PRECHARGE, 0xF1]
  ++ command [SET_VCOMH, 0x40]
  ++ command [DISPLAY_ALL_ON_RESUME]
  ++ command [NORMAL_DISPLAY]
  ++ command [DISPLAY_ON]
  ++ display c (clear c)

/-- Driver state: the stored configuration and the framebuffer. -/
structure DriverState where
  cfg : Config
  buffer : List Nat
deriving DecidableEq

/-- SSD1315.__init__: stores the geometry, allocates a zeroed buffer of
length width * pages, and runs _init_display. It performs no geometry
validation and raises no configuration error; the result is the final
state paired with every bus write issued, in order. -/
def init (c : Config) : DriverState × List BusWrite :=
  ({ cfg := c, buffer := clear c }, init_display c)

/-- The command bytes of a trace, in order. -/
def cmdBytes (ws : List BusWrite) : List Nat :=
  ws.filterMap fun w => match w with | .cmd b => some b | .data _ => none

/-- The concatenated data payload of a trace, in order. -/
def dataPayload (ws : List BusWrite) : List Nat :=
  (ws.filterMap fun w => match w with | .data ch => some ch | .cmd _ => none).flatten

/-- Calls Canvas.__exit__ makes on the device, in order. -/
inductive DevEvent where
  | ingest
  | commit
deriving DecidableEq

/-- Canvas.__exit__: device.image(self.image), then device.display(),
then return False. Result: the new driver state, the bus writes of the
commit, the device calls made, and the returned suppression flag. -/
def canvasExit (s : DriverState) (px : Nat → Nat → Bool) :
    DriverState × List BusWrite × List DevEvent × Bool :=
  let s2 : DriverState := { s with buffer := image s.cfg px }
  (s2, display s2.cfg s2.buffer, [DevEvent.ingest, DevEvent.commit], false)

/-- Outcome of running a with-Canvas scope whose body left the drawing
surface holding px and finished with the given outcome (none = normal
completion, some e = exception e). -/
structure ScopeResult (ε : Type) where
  state : DriverState
  trace : List BusWrite
  events : List DevEvent
  raised : Option ε

/-- Python with-statement semantics around Canvas: __exit__ runs whether
the body completed or raised; a raised exception is suppressed only when
__exit__ returns True, else it propagates unchanged. -/
def canvasScope {ε : Type} (s : DriverState) (px : Nat → Nat → Bool)
    (outcome : Option ε) : ScopeResult ε :=
  let r := canvasExit s px
  { state := r.1
    trace := r.2.1
    events := r.2.2.1
    raised := if r.2.2.2 then none else outcome }

end SSD1315

namespace SSD1315

/-! Helper lemmas about the bus encoding. -/

theorem flatten_chunks_aux (l : List Nat) (k : Nat) :
    ((List.range k).map fun i => (l.drop (32 * i)).take 32).flatten = l.take (32 * k) := by
  induction k with
  | zero => simp
  | succ k ih =>
      rw [List.range_succ, List.map_append, List.flatten_append, ih]
      simp only [List.map_cons, List.map_nil, List.flatten_cons, List.flatten_nil,
        List.append_nil, Nat.mul_succ]
      rw [← List.take_add]

theorem dataChunks_flatten (l : List Nat) : (dataChunks l).flatten = l := by
  unfold dataChunks
  rw [flatten_chunks_aux]
  exact List.take_of_length_le (by omega)

theorem dataChunks_count (l : List Nat) :
    (dataChunks l).length = (l.length + 31) / 32 := by
  simp [dataChunks]

theorem dataChunks_size (l : List Nat) :
    ∀ ch ∈ dataChunks l, ch.length ≤ 32 := by
  intro ch hch
  simp only [dataChunks, List.mem_map, List.mem_range] at hch
  obtain ⟨i, _, rfl⟩ := hch
  exact List.length_take_le 32 _

theorem cmdBytes_append (a b : List BusWrite) :
    cmdBytes (a ++ b) = cmdBytes a ++ cmdBytes b := by
  simp [cmdBytes, List.filterMap_append]

theorem dataPayload_append (a b : List BusWrite) :
    dataPayload (a ++ b) = dataPayload a ++ dataPayload b := by
  simp [dataPayload, List.filterMap_append]

theorem cmdBytes_command (cs : List Nat) : cmdBytes (command cs) = cs := by
  induction cs with
  | nil => rfl
  | cons a l ih => simpa [cmdBytes, command, List.filterMap_cons] using ih

theorem cmdBytes_map_data (chs : List (List Nat)) :
    cmdBytes (chs.map BusWrite.data) = [] := by
  induction chs with
  | nil => rfl
  | cons a l ih => simp [cmdBytes, List.filterMap_cons]

theorem cmdBytes_sendData (l : List Nat) : cmdBytes (sendData l) = [] :=
  cmdBytes_map_data (dataChunks l)

theorem dataPayload_command (cs : List Nat) : dataPayload (command cs) = [] := by
  induction cs with
  | nil => rfl
  | cons a l ih => simp [dataPayload, command, List.filterMap_cons]

theorem dataPayload_map_data (chs : List (List Nat)) :
    dataPayload (chs.map BusWrite.data) = chs.flatten := by
  induction chs with
  | nil => rfl
  | cons a l ih => simpa [dataPayload, List.filterMap_cons] using ih

theorem dataPayload_sendData (l : List Nat) : dataPayload (sendData l) = l := by
  rw [sendData, dataPayload_map_data, dataChunks_flatten]

/-! Helper lemmas about the framebuffer. -/

theorem set_pixel_length (c : Config) (buf : List Nat) (x y : Int) (color : Nat) :
    (set_pixel c buf x y color).length = buf.length := by
  unfold set_pixel
  split
  · split <;> simp
  · rfl

theorem foldl_length_eq {α : Type} (f : List Nat → α → List Nat)
    (h : ∀ b a, (f b a).length = b.length) :
    ∀ (l : List α) (b : List Nat), (l.foldl f b).length = b.length := by
  intro l
  induction l with
  | nil => intro b; rfl
  | cons a l ih => intro b; rw [List.foldl_cons, ih, h]

theorem clear_length (c : Config) : (clear c).length = c.width * c.pages := by
  simp [clear]

theorem image_length (c : Config) (px : Nat → Nat → Bool) :
    (image c px).length = c.width * c.pages := by
  unfold image
  rw [foldl_length_eq, clear_length]
  intro b y
  rw [foldl_length_eq]
  intro b2 x
  split
  · exact set_pixel_length ..
  · rfl

theorem idx_lt (c : Config) (x y : Int) (h8 : c.height % 8 = 0)
    (hx0 : 0 ≤ x) (hx : x < (c.width : Int))
    (hy0 : 0 ≤ y) (hy : y < (c.height : Int)) :
    (y.toNat / 8) * c.width + x.toNat < c.width * c.pages := by
  have hxw : x.toNat < c.width := by omega
  have hpg : y.toNat / 8 < c.pages := by
    unfold Config.pages
    omega
  calc (y.toNat / 8) * c.width + x.toNat
      < (y.toNat / 8 + 1) * c.width := by
        rw [Nat.succ_mul]
        omega
    _ ≤ c.pages * c.width := Nat.mul_le_mul_right _ hpg
    _ = c.width * c.pages := Nat.mul_comm ..

theorem getD_set_self (l : List Nat) (i v : Nat) (h : i < l.length) :
    (l.set i v).getD i 0 = v := by
  simp [List.getD, List.getElem?_set_self, h]

theorem getD_set_ne (l : List Nat) (i j v : Nat) (h : i ≠ j) :
    (l.set i v).getD j 0 = l.getD j 0 := by
  simp [List.getD, List.getElem?_set_ne h]

theorem testBit_or_pow (b bit k : Nat) :
    (b ||| (1 <<< bit)).testBit k = if k = bit then true else b.testBit k := by
  rw [Nat.one_shiftLeft, Nat.testBit_lor]
  by_cases h : k = bit
  · subst h
    simp [Nat.testBit_two_pow_self]
  · simp [h, Nat.testBit_two_pow_of_ne (Ne.symm h)]

theorem testBit_ldiff_pow (b bit k : Nat) :
    (Nat.ldiff b (1 <<< bit)).testBit k = if k = bit then false else b.testBit k := by
  rw [Nat.one_shiftLeft, Nat.testBit_ldiff]
  by_cases h : k = bit
  · subst h
    simp [Nat.testBit_two_pow_self]
  · simp [h, Nat.testBit_two_pow_of_ne (Ne.symm h)]

end SSD1315

namespace SSD1315

/-- C3: sendData on an L-byte payload issues exactly (L + 31) / 32 bus
writes, each a data transaction (control prefix 0x40) of at most 32
bytes, and the transmitted chunks concatenate, in order, to the original
payload. -/
theorem C3_sendData_chunking (payload : List Nat) :
    (sendData payload).length = (payload.length + 31) / 32
    ∧ (∀ w ∈ sendData payload, w.controlByte = 0x40
        ∧ ∃ ch, w = BusWrite.data ch ∧ ch.length ≤ 32)
    ∧ dataPayload (sendData payload) = payload := by
  refine ⟨by simp [sendData, dataChunks], ?_, dataPayload_sendData payload⟩
  intro w hw
  simp only [sendData, List.mem_map] at hw
  obtain ⟨ch, hch, rfl⟩ := hw
  exact ⟨rfl, ch, rfl, dataChunks_size payload ch hch⟩

/-- C5: set_pixel with coordinates outside the width times height window
leaves the framebuffer byte-for-byte unchanged (it is a total function,
so no error is raised). -/
theorem C5_set_pixel_oob (c : Config) (buf : List Nat) (x y : Int) (color : Nat)
    (h : ¬(0 ≤ x ∧ x < (c.width : Int) ∧ 0 ≤ y ∧ y < (c.height : Int))) :
    set_pixel c buf x y color = buf := by
  simp [set_pixel, h]

/-- C5 witness: set_pixel at x = -1 on the default 64 x 32 geometry is a
no-op. -/
theorem C5_witness :
    set_pixel { width := 64, height := 32, rotate := 0 }
      (List.replicate 256 0) (-1) 0 1 = List.replicate 256 0 :=
  C5_set_pixel_oob { width := 64, height := 32, rotate := 0 }
    (List.replicate 256 0) (-1) 0 1 (by decide)

/-- C6: fill 1 yields a buffer of length width * pages of 0xFF bytes,
fill 0 one of 0x00 bytes, whatever the prior buffer was. -/
theorem C6_fill (c : Config) (old : List Nat) :
    (fill c old 1).length = c.width * c.pages
    ∧ (∀ b ∈ fill c old 1, b = 0xFF)
    ∧ (fill c old 0).length = c.width * c.pages
    ∧ (∀ b ∈ fill c old 0, b = 0x00) := by
  refine ⟨by simp [fill], ?_, by simp [fill], ?_⟩ <;>
    intro b hb <;> simp [fill] at hb <;> exact hb.2

/-- C9: the framebuffer length is width * pages at construction, and
set_pixel preserves any buffer length while fill, clear, and image
ingestion always produce a buffer of length width * pages. -/
theorem C9_buffer_length (c : Config) :
    (init c).1.buffer.length = c.width * c.pages
    ∧ (∀ (buf : List Nat) (x y : Int) (color : Nat),
        (set_pixel c buf x y color).length = buf.length)
    ∧ (∀ (old : List Nat) (color : Nat),
        (fill c old color).length = c.width * c.pages)
    ∧ (clear c).length = c.width * c.pages
    ∧ (∀ px : Nat → Nat → Bool, (image c px).length = c.width * c.pages) :=
  ⟨clear_length c,
   fun buf x y color => set_pixel_length c buf x y color,
   fun old color => by simp [fill],
   clear_length c,
   fun px => image_length c px⟩

/-- C7: on Canvas scope exit, whatever the body outcome, exactly one
ingest happens followed by exactly one commit: the device events are
always [ingest, commit], the new buffer is the ingested surface, and the
bus trace is the single commit of that buffer. -/
theorem C7_canvas_always_commits {ε : Type} (s : DriverState)
    (px : Nat → Nat → Bool) (outcome : Option ε) :
    (canvasScope s px outcome).events = [DevEvent.ingest, DevEvent.commit]
    ∧ (canvasScope s px outcome).events.count DevEvent.ingest = 1
    ∧ (canvasScope s px outcome).events.count DevEvent.commit = 1
    ∧ (canvasScope s px outcome).state.buffer = image s.cfg px
    ∧ (canvasScope s px outcome).trace = display s.cfg (image s.cfg px) := by
  refine ⟨rfl, ?_, ?_, rfl, rfl⟩ <;> rfl

/-- C10: Canvas.__exit__ returns False, so an exception raised by the
body propagates unchanged after the ingest and commit; the scope never
suppresses it. -/
theorem C10_exception_propagates {ε : Type} (s : DriverState)
    (px : Nat → Nat → Bool) (e : ε) :
    (canvasScope s px (some e)).raised = some e
    ∧ (canvasScope s px (some e)).events = [DevEvent.ingest, DevEvent.commit] :=
  ⟨rfl, rfl⟩

/-- C8 counterexample: constructing with height 20 (not a multiple of 8)
is not rejected: the constructor completes, allocating a 64 * 2 byte
buffer, and performs bus activity (a nonempty write trace), contrary to
a rejection before any bus activity. -/
theorem C8_counterexample :
    (init { width := 64, height := 20, rotate := 0 }).2 ≠ []
    ∧ (init { width := 64, height := 20, rotate := 0 }).1.buffer.length = 64 * 2 := by
  decide

/-- C8 amended: the constructor performs no geometry validation; for any
configuration, valid or not, it completes with a buffer of length
width * (height / 8) and immediately performs bus activity, its first
write being the DISPLAY_OFF command. -/
theorem C8_no_validation (c : Config) :
    (init c).1.buffer.length = c.width * (c.height / 8)
    ∧ (init c).2.head? = some (BusWrite.cmd DISPLAY_OFF) :=
  ⟨clear_length c, rfl⟩

end SSD1315

namespace SSD1315

theorem set_pixel_in (c : Config) (buf : List Nat) (x y : Int) (color : Nat)
    (h : 0 ≤ x ∧ x < (c.width : Int) ∧ 0 ≤ y ∧ y < (c.height : Int)) :
    set_pixel c buf x y color =
      if color ≠ 0 then
        buf.set ((y.toNat / 8) * c.width + x.toNat)
          (buf.getD ((y.toNat / 8) * c.width + x.toNat) 0 ||| (1 <<< (y.toNat % 8)))
      else
        buf.set ((y.toNat / 8) * c.width + x.toNat)
          (Nat.ldiff (buf.getD ((y.toNat / 8) * c.width + x.toNat) 0)
            (1 <<< (y.toNat % 8))) := by
  simp only [set_pixel, if_pos h]

/-- C1: for in-bounds coordinates and any buffer contents (under the
geometry invariant), set_pixel with color 1 sets exactly the bit
y mod 8 of the byte at (y / 8) * width + x and changes no other bit, and
set_pixel with color 0 clears exactly that bit and changes no other
bit; the buffer length is unchanged in both cases. -/
theorem C1_set_pixel_single_bit (c : Config) (buf : List Nat) (x y : Int) (j k : Nat)
    (hlen : buf.length = c.width * c.pages) (h8 : c.height % 8 = 0)
    (hx0 : 0 ≤ x) (hx : x < (c.width : Int))
    (hy0 : 0 ≤ y) (hy : y < (c.height : Int)) :
    (((set_pixel c buf x y 1).getD j 0).testBit k =
      if j = (y.toNat / 8) * c.width + x.toNat ∧ k = y.toNat % 8 then true
      else (buf.getD j 0).testBit k)
    ∧ (((set_pixel c buf x y 0).getD j 0).testBit k =
      if j = (y.toNat / 8) * c.width + x.toNat ∧ k = y.toNat % 8 then false
      else (buf.getD j 0).testBit k)
    ∧ (set_pixel c buf x y 1).length = buf.length
    ∧ (set_pixel c buf x y 0).length = buf.length := by
  have hcond : 0 ≤ x ∧ x < (c.width : Int) ∧ 0 ≤ y ∧ y < (c.height : Int) :=
    ⟨hx0, hx, hy0, hy⟩
  have hidx : (y.toNat / 8) * c.width + x.toNat < buf.length := by
    rw [hlen]
    exact idx_lt c x y h8 hx0 hx hy0 hy
  have hset1 := set_pixel_in c buf x y 1 hcond
  have hset0 := set_pixel_in c buf x y 0 hcond
  simp only [ne_eq, one_ne_zero, not_false_eq_true, if_true, ite_true] at hset1
  simp only [ne_eq, not_true_eq_false, ite_false, if_false] at hset0
  refine ⟨?_, ?_, by rw [hset1, List.length_set], by rw [hset0, List.length_set]⟩
  · rw [hset1]
    by_cases hj : j = (y.toNat / 8) * c.width + x.toNat
    · subst hj
      rw [getD_set_self _ _ _ hidx, testBit_or_pow]
      by_cases hk : k = y.toNat % 8 <;> simp [hk]
    · rw [getD_set_ne _ _ _ _ fun he => hj he.symm]
      simp [hj]
  · rw [hset0]
    by_cases hj : j = (y.toNat / 8) * c.width + x.toNat
    · subst hj
      rw [getD_set_self _ _ _ hidx, testBit_ldiff_pow]
      by_cases hk : k = y.toNat % 8 <;> simp [hk]
    · rw [getD_set_ne _ _ _ _ fun he => hj he.symm]
      simp [hj]

/-- C1 witness: on the default 64 x 32 geometry, setting pixel (5, 9)
turns on bit 1 of byte 69, and all of byte 0 is untouched. -/
theorem C1_witness :
    ((set_pixel { width := 64, height := 32, rotate := 0 }
        (List.replicate 256 0) 5 9 1).getD 69 0).testBit 1 = true := by
  have h := C1_set_pixel_single_bit { width := 64, height := 32, rotate := 0 }
    (List.replicate 256 0) 5 9 69 1
    (by decide) (by decide) (by decide) (by decide) (by decide) (by decide)
  simpa using h.1

end SSD1315

namespace SSD1315

/-- C2: display sends the column-address window [0, width-1], then the
page-address window [0, pages-1], then streams the whole buffer as data;
on the 64 x 32 geometry, after set_pixel (0, 0) 1 on a cleared buffer
the transmitted data payload is 0x01 followed by 255 zero bytes, 256
bytes in total. -/
theorem C2_commit_stream (c : Config) (buf : List Nat) :
    display c buf =
      [BusWrite.cmd SET_COLUMN_ADDR, BusWrite.cmd 0, BusWrite.cmd (c.width - 1),
       BusWrite.cmd SET_PAGE_ADDR, BusWrite.cmd 0, BusWrite.cmd (c.pages - 1)]
      ++ sendData buf
    ∧ dataPayload (display c buf) = buf
    ∧ dataPayload
        (display { width := 64, height := 32, rotate := 0 }
          (set_pixel { width := 64, height := 32, rotate := 0 }
            (clear { width := 64, height := 32, rotate := 0 }) 0 0 1))
        = 1 :: List.replicate 255 0
    ∧ (dataPayload
        (display { width := 64, height := 32, rotate := 0 }
          (set_pixel { width := 64, height := 32, rotate := 0 }
            (clear { width := 64, height := 32, rotate := 0 }) 0 0 1))).length
        = 256 := by
  refine ⟨rfl, ?_, by decide, by decide⟩
  show dataPayload (command _ ++ command _ ++ sendData buf) = buf
  rw [dataPayload_append, dataPayload_append, dataPayload_command,
    dataPayload_command, dataPayload_sendData]
  simp

theorem cmdBytes_cons_cmd (b : Nat) (ws : List BusWrite) :
    cmdBytes (BusWrite.cmd b :: ws) = b :: cmdBytes ws := by
  simp [cmdBytes, List.filterMap_cons]

/-- C4: the initialization stream is the fixed 16-step command sequence:
for any configuration the command bytes are exactly the list below, with
0xA1 then 0xC8 when rotate = 0 and 0xA0 then 0xC0 otherwise (hence for
the 180 degree path), COM-pins byte 0x02 when height is at most 32 and
0x12 otherwise, contrast byte 0xCF, and the final clear-and-commit
streams width * pages zero bytes. -/
theorem C4_init_stream (c : Config) :
    cmdBytes (init c).2 =
      [0xAE, 0xD5, 0x80, 0xA8, c.height - 1, 0xD3, 0x00, 0x40, 0x8D, 0x14, 0x20, 0x00]
      ++ (if c.rotate = 0 then [0xA1, 0xC8] else [0xA0, 0xC0])
      ++ [0xDA, if c.height ≤ 32 then 0x02 else 0x12]
      ++ [0x81, 0xCF, 0xD9, 0xF1, 0xDB, 0x40, 0xA4, 0xA6, 0xAF,
          0x21, 0x00, c.width - 1, 0x22, 0x00, c.pages - 1]
    ∧ dataPayload (init c).2 = List.replicate (c.width * c.pages) 0 := by
  constructor
  · show cmdBytes (init_display c) = _
    by_cases hr : c.rotate = 0 <;> by_cases hh : c.height ≤ 32 <;>
      simp [init_display, display, hr, hh, cmdBytes_append, cmdBytes_command,
        cmdBytes_cons_cmd, cmdBytes_sendData, DISPLAY_OFF, DISPLAY_ON, SET_CLOCK_DIV, SET_MUX_RATIO,
        SET_DISPLAY_OFFSET, SET_START_LINE, CHARGE_PUMP, CHARGE_PUMP_ON,
        SET_MEMORY_MODE, SEG_REMAP_ON, SEG_REMAP_OFF, COM_SCAN_DEC, COM_SCAN_INC,
        SET_COM_PINS, SET_CONTRAST, SET_PRECHARGE, SET_VCOMH,
        DISPLAY_ALL_ON_RESUME, NORMAL_DISPLAY, INVERSE_DISPLAY,
        SET_COLUMN_ADDR, SET_PAGE_ADDR, command]
  · show dataPayload (init_display c) = _
    by_cases hr : c.rotate = 0 <;>
      simp [init_display, display, hr, dataPayload_append, dataPayload_command,
        dataPayload_sendData, clear]

end SSD1315
